import Mathlib

/-!
Shallow embedding of the Arclift backup orchestration engine
(`internal/backup`, `internal/config`, `internal/storage`) for checking the
specification's claims.

Collaborators (storage backend, GPG adapter, archive adapter, notifier sink)
are modelled as injected functions returning `Except String _`; the engine
functions return the event trace of collaborator calls and notifications they
perform, mirroring the Go control flow statement by statement.
-/

deriving instance DecidableEq for Except

namespace Arclift

/-- `GPGConfig` from `internal/config`: key server and key ID. -/
structure GPGConfig where
  keyServer : String
  keyID : String
deriving DecidableEq

/-- `Encryption` config from `internal/config`. -/
structure EncryptionConfig where
  enabled : Bool
  gpg : GPGConfig
deriving DecidableEq

/-- `BackupConfig` from `internal/config` (Go ints modelled as `Int`). -/
structure BackupConfig where
  dirs : List String
  hostname : String
  retentionCount : Int
  dateTimeLayout : String
  cron : String
  archiveDirs : Bool
  encryption : EncryptionConfig
deriving DecidableEq

/-- `BackupConfig.validate` from `internal/config`.  The Go method mutates the
receiver (it may reset `Encryption.Enabled`) and returns an error; we model it
as returning either the error message or the updated config. -/
def BackupConfig.validate (b : BackupConfig) : Except String BackupConfig :=
  if b.dirs.length = 0 then
    .error "dirs is required"
  else if b.retentionCount ≤ 0 then
    .error "retention-count must be greater than 0"
  else if b.cron = "" then
    .error "cron is required"
  else if b.encryption.enabled && !b.archiveDirs then
    -- encryption only available with archive dirs: silently disable it
    .ok { b with encryption := { b.encryption with enabled := false } }
  else if b.encryption.enabled &&
      (b.encryption.gpg.keyServer = "" || b.encryption.gpg.keyID = "") then
    -- missing GPG key server / key ID: silently disable encryption
    .ok { b with encryption := { b.encryption with enabled := false } }
  else
    .ok b

/-- `commonFiles.ArchiveDir` response (GoCommon `ArchiveDirResponse` as used by
the engine): archive path plus file/dir counts. -/
structure ArchiveResp where
  archivePath : String
  totalFiles : Int
  totalDirs : Int
  successFiles : Int
  failedFiles : List (String × String)
deriving DecidableEq

/-- `storage.UploadDirResponse` from `internal/storage`. -/
structure UploadDirResponse where
  baseKey : String
  totalFiles : Int
  totalDirs : Int
  successFiles : Int
  failedFiles : List (String × String)
deriving DecidableEq

/-- The Go zero value `storage.UploadDirResponse{}` returned on error paths. -/
def zeroResp : UploadDirResponse :=
  { baseKey := "", totalFiles := 0, totalDirs := 0, successFiles := 0,
    failedFiles := [] }

/-- The sentinel error `ErrNoProcessableFiles` from `internal/backup`. -/
def errNoProcessableFiles : String := "no processable files"

/-- One run's collaborator behaviour: outcomes of every external call the
engine can make (archive adapter, GPG adapter, storage backend).  Contexts are
implicit: a cancelled context is a collaborator that returns the cancellation
error. -/
structure Collab where
  archiveDir : String → Except String ArchiveResp
  fetchGPGPubKeyFromKeyServer : String → String → Except String String
  encryptFile : String → Except String String
  uploadFile : String → Except String String
  uploadDir : String → Except String UploadDirResponse
  list : Except String (List String)
  delete : String → Except String Unit
  trimPfx : List String → List String

/-- Observable engine actions: collaborator calls, local file removals
(`os.Remove`), and notifications, in program order. -/
inductive Event where
  | archive (dir : String)
  | fetchKey
  | encrypt (path : String)
  | removeFile (path : String)
  | uploadFile (path : String)
  | uploadDir (dir : String)
  | listCall
  | deleteKey (key : String)
  | notifySuccess (dir : String) (totalDirs totalFiles successFiles : Int)
      (key : String)
  | notifyFailure (dir : String) (totalDirs totalFiles : Int) (err : String)
  | notifyDeleteFailure (key : String) (err : String)
deriving DecidableEq

/-- `BackupManager.unArchivedBackup`: upload the raw directory.  Returns the
trace, the response (Go zero value on error) and the error. -/
def unArchivedBackup (c : Collab) (dir : String) :
    List Event × UploadDirResponse × Option String :=
  match c.uploadDir dir with
  | .error e => ([.uploadDir dir], zeroResp, some e)
  | .ok resp => ([.uploadDir dir], resp, none)

/-- `BackupManager.archivedBackup`: archive, optionally encrypt, upload.
Returns the trace, the response (Go zero value on error) and the error,
following the source line by line. -/
def archivedBackup (cfg : BackupConfig) (c : Collab) (dir : String) :
    List Event × UploadDirResponse × Option String :=
  match c.archiveDir dir with
  | .error e => ([.archive dir], zeroResp, some e)
  | .ok ar =>
    if ar.successFiles ≤ 0 then
      ([.archive dir], zeroResp, some errNoProcessableFiles)
    else if cfg.encryption.enabled then
      match c.fetchGPGPubKeyFromKeyServer cfg.encryption.gpg.keyID
          cfg.encryption.gpg.keyServer with
      | .error e => ([.archive dir, .fetchKey], zeroResp, some e)
      | .ok _ =>
        match c.encryptFile ar.archivePath with
        | .error e =>
          ([.archive dir, .fetchKey, .encrypt ar.archivePath], zeroResp, some e)
        | .ok encPath =>
          -- plaintext archive removed right after successful encryption
          match c.uploadFile encPath with
          | .error e =>
            ([.archive dir, .fetchKey, .encrypt ar.archivePath,
              .removeFile ar.archivePath, .uploadFile encPath],
             zeroResp, some e)
          | .ok key =>
            ([.archive dir, .fetchKey, .encrypt ar.archivePath,
              .removeFile ar.archivePath, .uploadFile encPath,
              .removeFile encPath],
             { baseKey := key, totalFiles := ar.totalFiles,
               totalDirs := ar.totalDirs, successFiles := ar.successFiles,
               failedFiles := ar.failedFiles }, none)
    else
      match c.uploadFile ar.archivePath with
      | .error e =>
        ([.archive dir, .uploadFile ar.archivePath], zeroResp, some e)
      | .ok key =>
        ([.archive dir, .uploadFile ar.archivePath,
          .removeFile ar.archivePath],
         { baseKey := key, totalFiles := ar.totalFiles,
           totalDirs := ar.totalDirs, successFiles := ar.successFiles,
           failedFiles := ar.failedFiles }, none)

/-- The pipeline chosen by `Backup` for one directory, without the trailing
notification: `archivedBackup` when `archive-dirs` is set, else
`unArchivedBackup`. -/
def pipelineOf (cfg : BackupConfig) (c : Collab) (dir : String) :
    List Event × UploadDirResponse × Option String :=
  if cfg.archiveDirs then archivedBackup cfg c dir else unArchivedBackup c dir

/-- One iteration of the loop in `BackupManager.Backup` for one directory:
run the pipeline, then notify success or failure with the returned response's
counts. -/
def backupOne (cfg : BackupConfig) (c : Collab) (dir : String) : List Event :=
  match pipelineOf cfg c dir with
  | (tr, resp, some e) =>
    tr ++ [.notifyFailure dir resp.totalDirs resp.totalFiles e]
  | (tr, resp, none) =>
    tr ++ [.notifySuccess dir resp.totalDirs resp.totalFiles resp.successFiles
      resp.baseKey]

/-- `BackupManager.Backup`: process every configured directory in order;
always returns `nil` (`none`). -/
def Backup (cfg : BackupConfig) (c : Collab) : List Event × Option String :=
  ((cfg.dirs.map (backupOne cfg c)).flatten, none)

/-- Descending lexical comparator on timestamp strings: `a` is newer than or
equal to `b`.  Stated on the underlying character lists (`String.data`), which
is equivalent to the string order (`String.le_iff_toList_le`) and computable
by the kernel. -/
def strDescRel (a b : String) : Prop := b.data ≤ a.data

instance : DecidableRel strDescRel := fun a b =>
  inferInstanceAs (Decidable (b.data ≤ a.data))

/-- `datetime.SortDateTimes` (GoCommon collaborator, not under `src/`).
Modelled from the spec: sorts the timestamp strings in descending order
(newest first) using the lexical comparison that the default layout makes
coincide with chronological order. -/
def sortDateTimes (l : List String) : List String :=
  l.insertionSort strDescRel

/-- `BackupManager.ListBackups`: list keys, propagate a listing error, return
`[]` on an empty listing, otherwise trim the root prefix and sort
descending. -/
def ListBackups (c : Collab) : List Event × Except String (List String) :=
  match c.list with
  | .error e => ([.listCall], .error e)
  | .ok keys =>
    if keys.length = 0 then ([.listCall], .ok [])
    else ([.listCall], .ok (sortDateTimes (c.trimPfx keys)))

/-- One iteration of the deletion loop in `BackupManager.PurgeOldBackups`:
attempt the deletion; on failure notify and continue. -/
def purgeOne (c : Collab) (key : String) : List Event :=
  match c.delete key with
  | .error e => [.deleteKey key, .notifyDeleteFailure key e]
  | .ok _ => [.deleteKey key]

/-- `BackupManager.PurgeOldBackups`: list (propagating only the listing
error), keep the newest `retentionCount` keys, attempt deletion of the
rest. -/
def PurgeOldBackups (cfg : BackupConfig) (c : Collab) :
    List Event × Option String :=
  match ListBackups c with
  | (tr, .error e) => (tr, some e)
  | (tr, .ok keys) =>
    if (keys.length : Int) ≤ cfg.retentionCount then (tr, none)
    else
      let keysToDelete := keys.drop cfg.retentionCount.toNat
      (tr ++ (keysToDelete.map (purgeOne c)).flatten, none)

/-- The deletion candidates `keys[retentionCount:]` computed by
`PurgeOldBackups` (empty when the listing fails or fits the retention). -/
def purgeCandidates (cfg : BackupConfig) (c : Collab) : List String :=
  match (ListBackups c).2 with
  | .error _ => []
  | .ok keys =>
    if (keys.length : Int) ≤ cfg.retentionCount then []
    else keys.drop cfg.retentionCount.toNat

/-- Keys for which a storage deletion was requested in a trace. -/
def deleteRequests (tr : List Event) : List String :=
  tr.filterMap fun e => match e with | .deleteKey k => some k | _ => none

/-- Local file paths removed (`os.Remove`) in a trace. -/
def removedFiles (tr : List Event) : List String :=
  tr.filterMap fun e => match e with | .removeFile p => some p | _ => none

/-- Whether an event is a per-directory backup notification. -/
def isBackupNotif : Event → Bool
  | .notifySuccess _ _ _ _ _ => true
  | .notifyFailure _ _ _ _ => true
  | _ => false

/-- Whether an event is an encryption-related collaborator call. -/
def isEncryptionCall : Event → Bool
  | .fetchKey => true
  | .encrypt _ => true
  | _ => false

/-- A valid base configuration: one directory, retention 2, archiving on,
encryption off. -/
def baseCfg : BackupConfig where
  dirs := ["/data"]
  hostname := "host1"
  retentionCount := 2
  dateTimeLayout := "20060102150405"
  cron := "0 0 * * *"
  archiveDirs := true
  encryption := { enabled := false, gpg := { keyServer := "", keyID := "" } }

/-- The archive-step result used by the healthy collaborator: 3 files over
2 dirs, all archived. -/
def okArchiveResp : ArchiveResp :=
  { archivePath := "/tmp/a.tar", totalFiles := 3, totalDirs := 2,
    successFiles := 3, failedFiles := [] }

/-- The directory-upload result used by the healthy collaborator. -/
def okUploadDirResp : UploadDirResponse :=
  { baseKey := "p/h/20240101000000", totalFiles := 3, totalDirs := 2,
    successFiles := 3, failedFiles := [] }

/-- An archive-step result with zero successfully archived files. -/
def zeroFilesArchiveResp : ArchiveResp :=
  { archivePath := "/tmp/a.tar", totalFiles := 5, totalDirs := 1,
    successFiles := 0, failedFiles := [] }

/-- A fully healthy collaborator: archive gathers 3 files over 2 dirs, the
store holds three timestamp keys (trimming is the identity here). -/
def okCollab : Collab where
  archiveDir := fun _ => .ok okArchiveResp
  fetchGPGPubKeyFromKeyServer := fun _ _ => .ok "pubkey"
  encryptFile := fun p => .ok (p ++ ".gpg")
  uploadFile := fun _ => .ok "p/h/20240101000000"
  uploadDir := fun _ => .ok okUploadDirResp
  list := .ok ["20240101", "20240103", "20240102"]
  delete := fun _ => .ok ()
  trimPfx := fun ks => ks

/-- A populated GPG configuration. -/
def goodGpg : GPGConfig := { keyServer := "hkps://keys.example", keyID := "KEY1" }

/-- `baseCfg` with encryption enabled (and archiving on). -/
def encCfg : BackupConfig :=
  { baseCfg with encryption := { enabled := true, gpg := goodGpg } }

/-- `okCollab` whose GPG key fetch fails. -/
def fetchFailCollab : Collab :=
  { okCollab with fetchGPGPubKeyFromKeyServer := fun _ _ => .error "fetch failed" }

/-- `okCollab` whose single-file upload fails. -/
def uploadFailCollab : Collab :=
  { okCollab with uploadFile := fun _ => .error "upload failed" }

/-- `okCollab` whose archive step reports zero successfully archived files. -/
def zeroFilesCollab : Collab :=
  { okCollab with archiveDir := fun _ => .ok zeroFilesArchiveResp }

/-- Two raw directories, no archiving. -/
def cancelCfg : BackupConfig :=
  { baseCfg with dirs := ["/a", "/b"], archiveDirs := false }

/-- A collaborator behind a cancelled context: every pipeline call returns
the cancellation error. -/
def cancelledCollab : Collab :=
  { okCollab with
    archiveDir := fun _ => .error "context canceled",
    uploadDir := fun _ => .error "context canceled",
    uploadFile := fun _ => .error "context canceled" }

/-- A collaborator whose every call fails, listing included. -/
def failCollab : Collab :=
  { cancelledCollab with
    list := .error "boom",
    delete := fun _ => .error "boom" }

/-- Encryption enabled while archiving is disabled (the invariant the config
layer silently repairs). -/
def invalidEncCfg : BackupConfig :=
  { baseCfg with
    archiveDirs := false,
    encryption := { enabled := true, gpg := goodGpg } }

/-- Encryption enabled with archiving on but an empty GPG key server. -/
def missingGpgCfg : BackupConfig :=
  { baseCfg with
    encryption := { enabled := true, gpg := { keyServer := "", keyID := "KEY1" } } }

/- Helper lemmas shared by the claim theorems. -/

theorem sortDateTimes_sorted (l : List String) :
    List.Sorted strDescRel (sortDateTimes l) := by
  haveI : IsTotal String strDescRel := ⟨fun a b => le_total b.data a.data⟩
  haveI : IsTrans String strDescRel := ⟨fun _ _ _ h1 h2 => le_trans h2 h1⟩
  exact List.sorted_insertionSort _ l

theorem sortDateTimes_perm (l : List String) :
    (sortDateTimes l).Perm l :=
  List.perm_insertionSort _ l

theorem strDescRel_le {a b : String} (h : strDescRel a b) : b ≤ a :=
  String.le_iff_toList_le.mpr h

theorem strDescRel_lt {a b : String} (h : strDescRel a b) (hne : a ≠ b) :
    b < a :=
  lt_of_le_of_ne (strDescRel_le h) fun hba => hne hba.symm

/-- `archivedBackup` returns the Go zero response on every error path. -/
theorem archivedBackup_err_resp (cfg : BackupConfig) (c : Collab)
    (dir : String) (e : String)
    (h : (archivedBackup cfg c dir).2.2 = some e) :
    (archivedBackup cfg c dir).2.1 = zeroResp := by
  unfold archivedBackup at h ⊢
  cases hA : c.archiveDir dir with
  | error e2 => simp [hA]
  | ok ar =>
    simp only [hA] at h ⊢
    by_cases hs : ar.successFiles ≤ 0
    · simp [hs]
    · by_cases henc : cfg.encryption.enabled
      · simp only [hs, henc, if_true, if_false]
        simp only [hs, henc, if_true, if_false] at h
        cases hF : c.fetchGPGPubKeyFromKeyServer cfg.encryption.gpg.keyID
            cfg.encryption.gpg.keyServer with
        | error e2 => simp [hF]
        | ok k =>
          simp only [hF] at h ⊢
          cases hE : c.encryptFile ar.archivePath with
          | error e2 => simp [hE]
          | ok encPath =>
            simp only [hE] at h ⊢
            cases hU : c.uploadFile encPath with
            | error e2 => simp [hU]
            | ok key => simp [hU] at h
      · simp only [hs, henc, if_false] at h ⊢
        cases hU : c.uploadFile ar.archivePath with
        | error e2 => simp [hU]
        | ok key => simp [hU] at h

/-- `unArchivedBackup` returns the Go zero response on its error path. -/
theorem unArchivedBackup_err_resp (c : Collab) (dir : String) (e : String)
    (h : (unArchivedBackup c dir).2.2 = some e) :
    (unArchivedBackup c dir).2.1 = zeroResp := by
  unfold unArchivedBackup at h ⊢
  cases hU : c.uploadDir dir with
  | error e2 => simp [hU]
  | ok resp => simp [hU] at h

/-- The pipeline part of a directory's processing emits no notification. -/
theorem archivedBackup_no_notif (cfg : BackupConfig) (c : Collab)
    (dir : String) :
    (archivedBackup cfg c dir).1.countP isBackupNotif = 0 := by
  unfold archivedBackup
  cases hA : c.archiveDir dir with
  | error e2 => simp [isBackupNotif]
  | ok ar =>
    by_cases hs : ar.successFiles ≤ 0
    · simp [hs, isBackupNotif]
    · by_cases henc : cfg.encryption.enabled
      · simp only [hs, henc, if_true, if_false]
        cases hF : c.fetchGPGPubKeyFromKeyServer cfg.encryption.gpg.keyID
            cfg.encryption.gpg.keyServer with
        | error e2 => simp [isBackupNotif]
        | ok k =>
          cases hE : c.encryptFile ar.archivePath with
          | error e2 => simp [hE, isBackupNotif]
          | ok encPath =>
            cases hU : c.uploadFile encPath with
            | error e2 => simp [hE, hU, isBackupNotif]
            | ok key => simp [hE, hU, isBackupNotif]
      · simp only [hs, henc, if_false]
        cases hU : c.uploadFile ar.archivePath with
        | error e2 => simp [hU, isBackupNotif]
        | ok key => simp [hU, isBackupNotif]

theorem unArchivedBackup_no_notif (c : Collab) (dir : String) :
    (unArchivedBackup c dir).1.countP isBackupNotif = 0 := by
  unfold unArchivedBackup
  cases hU : c.uploadDir dir with
  | error e2 => simp [isBackupNotif]
  | ok resp => simp [isBackupNotif]

theorem pipelineOf_no_notif (cfg : BackupConfig) (c : Collab) (dir : String) :
    (pipelineOf cfg c dir).1.countP isBackupNotif = 0 := by
  unfold pipelineOf
  by_cases h : cfg.archiveDirs
  · simp [h, archivedBackup_no_notif]
  · simp [h, unArchivedBackup_no_notif]

theorem pipelineOf_err_resp (cfg : BackupConfig) (c : Collab) (dir : String)
    (e : String) (h : (pipelineOf cfg c dir).2.2 = some e) :
    (pipelineOf cfg c dir).2.1 = zeroResp := by
  unfold pipelineOf at h ⊢
  by_cases harch : cfg.archiveDirs
  · simp only [harch, if_true] at h ⊢
    exact archivedBackup_err_resp cfg c dir e h
  · simp only [harch, if_false] at h ⊢
    exact unArchivedBackup_err_resp c dir e h

/-- Each directory's loop iteration emits exactly one backup notification. -/
theorem backupOne_one_notif (cfg : BackupConfig) (c : Collab) (dir : String) :
    (backupOne cfg c dir).countP isBackupNotif = 1 := by
  have htr := pipelineOf_no_notif cfg c dir
  unfold backupOne
  rcases hp : pipelineOf cfg c dir with ⟨tr, resp, err⟩
  rw [hp] at htr
  cases err <;> simp_all [List.countP_append, isBackupNotif]

theorem backup_notif_count_aux (cfg : BackupConfig) (c : Collab)
    (l : List String) :
    ((l.map (backupOne cfg c)).flatten).countP isBackupNotif = l.length := by
  induction l with
  | nil => rfl
  | cons d ds ih =>
    simp [List.countP_append, backupOne_one_notif, ih]
    omega

/-- A failed per-directory pipeline yields a failure notification for that
directory in the `Backup` trace, with the zeroed counts of the error
response. -/
theorem backup_failure_notified (cfg : BackupConfig) (c : Collab)
    (dir : String) (e : String) (hdir : dir ∈ cfg.dirs)
    (herr : (pipelineOf cfg c dir).2.2 = some e) :
    Event.notifyFailure dir 0 0 e ∈ (Backup cfg c).1 := by
  have hresp := pipelineOf_err_resp cfg c dir e herr
  have hmem : Event.notifyFailure dir 0 0 e ∈ backupOne cfg c dir := by
    unfold backupOne
    rcases hp : pipelineOf cfg c dir with ⟨tr, resp, err⟩
    rw [hp] at herr hresp
    simp only at herr hresp
    subst herr
    subst hresp
    simp [zeroResp]
  exact List.mem_flatten.mpr
    ⟨backupOne cfg c dir, List.mem_map_of_mem _ hdir, hmem⟩

theorem listBackups_fst (c : Collab) : (ListBackups c).1 = [Event.listCall] := by
  unfold ListBackups
  cases hl : c.list with
  | error e => rfl
  | ok keys => by_cases h0 : keys.length = 0 <;> simp [h0]

theorem listBackups_expand (c : Collab) (keys : List String)
    (h : (ListBackups c).2 = .ok keys) :
    ListBackups c = ([Event.listCall], .ok keys) := by
  have h1 := listBackups_fst c
  rcases hp : ListBackups c with ⟨tr, r⟩
  rw [hp] at h h1
  simp only at h h1
  rw [h, h1]

theorem listBackups_expand_err (c : Collab) (e : String)
    (h : (ListBackups c).2 = .error e) :
    ListBackups c = ([Event.listCall], .error e) := by
  have h1 := listBackups_fst c
  rcases hp : ListBackups c with ⟨tr, r⟩
  rw [hp] at h h1
  simp only at h h1
  rw [h, h1]

theorem listBackups_snd_of_err (c : Collab) (e : String)
    (h : c.list = .error e) : (ListBackups c).2 = .error e := by
  unfold ListBackups
  simp [h]

theorem listBackups_snd_of_ok (c : Collab) (keys : List String)
    (h : c.list = .ok keys) :
    (ListBackups c).2 =
      .ok (if keys.length = 0 then [] else sortDateTimes (c.trimPfx keys)) := by
  unfold ListBackups
  by_cases h0 : keys.length = 0 <;> simp [h, h0]

/-- Every successful `ListBackups` result is sorted descending (it is either
empty or a `sortDateTimes` output). -/
theorem listBackups_sorted (c : Collab) (keys : List String)
    (h : (ListBackups c).2 = .ok keys) : List.Sorted strDescRel keys := by
  unfold ListBackups at h
  cases hl : c.list with
  | error e => rw [hl] at h; simp at h
  | ok ks =>
    rw [hl] at h
    by_cases h0 : ks.length = 0 <;> simp [h0] at h
    · subst h; exact List.sorted_nil
    · subst h; exact sortDateTimes_sorted _

theorem purge_eq_of_ok (cfg : BackupConfig) (c : Collab) (keys : List String)
    (h : (ListBackups c).2 = .ok keys) :
    PurgeOldBackups cfg c =
      if (keys.length : Int) ≤ cfg.retentionCount then ([Event.listCall], none)
      else ([Event.listCall] ++
        ((keys.drop cfg.retentionCount.toNat).map (purgeOne c)).flatten,
        none) := by
  unfold PurgeOldBackups
  rw [listBackups_expand c keys h]

theorem purge_eq_of_err (cfg : BackupConfig) (c : Collab) (e : String)
    (h : (ListBackups c).2 = .error e) :
    PurgeOldBackups cfg c = ([Event.listCall], some e) := by
  unfold PurgeOldBackups
  rw [listBackups_expand_err c e h]

/-- The deletion loop requests deletion of exactly its input keys, in order,
whatever the storage outcomes. -/
theorem deleteRequests_purgeLoop (c : Collab) (l : List String) :
    deleteRequests ((l.map (purgeOne c)).flatten) = l := by
  induction l with
  | nil => rfl
  | cons k ks ih =>
    unfold deleteRequests at ih ⊢
    cases hd : c.delete k <;>
      simp [purgeOne, hd, List.filterMap_append, ih]

theorem purgeLoop_mem (c : Collab) (l : List String) (key : String)
    (h : key ∈ l) :
    Event.deleteKey key ∈ (l.map (purgeOne c)).flatten ∧
    ∀ e, c.delete key = .error e →
      Event.notifyDeleteFailure key e ∈ (l.map (purgeOne c)).flatten := by
  constructor
  · refine List.mem_flatten.mpr ⟨purgeOne c key, List.mem_map_of_mem _ h, ?_⟩
    unfold purgeOne
    cases hd : c.delete key <;> simp
  · intro e he
    refine List.mem_flatten.mpr ⟨purgeOne c key, List.mem_map_of_mem _ h, ?_⟩
    unfold purgeOne
    simp [he]

/- Claim theorems. -/

/-- C1: with retention `R > 0` and a successful listing of `N` keys,
`PurgeOldBackups` requests no deletion when `N ≤ R`; when `N > R` it requests
deletion of exactly the `N - R` keys at positions `R..` of the
descending-sorted sequence — the lexically/chronologically smallest — and of
no other key. -/
theorem purge_deletes_exactly_surplus (cfg : BackupConfig) (c : Collab)
    (keys : List String) (hR : 0 < cfg.retentionCount)
    (hlist : (ListBackups c).2 = .ok keys) :
    (keys.length ≤ cfg.retentionCount.toNat →
      deleteRequests (PurgeOldBackups cfg c).1 = [])
    ∧ (cfg.retentionCount.toNat < keys.length →
      deleteRequests (PurgeOldBackups cfg c).1 =
        keys.drop cfg.retentionCount.toNat
      ∧ (deleteRequests (PurgeOldBackups cfg c).1).length =
        keys.length - cfg.retentionCount.toNat
      ∧ ∀ b ∈ keys.drop cfg.retentionCount.toNat,
        ∀ a ∈ keys.take cfg.retentionCount.toNat, b ≤ a) := by
  have hpe := purge_eq_of_ok cfg c keys hlist
  constructor
  · intro hle
    have hc : (keys.length : Int) ≤ cfg.retentionCount := by omega
    rw [hpe, if_pos hc]
    rfl
  · intro hlt
    have hc : ¬ (keys.length : Int) ≤ cfg.retentionCount := by omega
    have hfull : deleteRequests (PurgeOldBackups cfg c).1 =
        keys.drop cfg.retentionCount.toNat := by
      rw [hpe, if_neg hc]
      show deleteRequests ([Event.listCall] ++
        ((keys.drop cfg.retentionCount.toNat).map (purgeOne c)).flatten) =
        keys.drop cfg.retentionCount.toNat
      unfold deleteRequests
      rw [List.filterMap_append]
      have h0 : List.filterMap
          (fun e => match e with | Event.deleteKey k => some k | _ => none)
          [Event.listCall] = [] := rfl
      rw [h0, List.nil_append]
      exact deleteRequests_purgeLoop c _
    refine ⟨hfull, ?_, ?_⟩
    · rw [hfull, List.length_drop]
    · have hsorted := listBackups_sorted c keys hlist
      rw [← List.take_append_drop cfg.retentionCount.toNat keys] at hsorted
      have hcross := (List.pairwise_append.mp hsorted).2.2
      intro b hb a ha
      exact strDescRel_le (hcross a ha b hb)

/-- Witness for C1 at retention 2 over three keys: only the oldest key,
`20240101`, is deleted. -/
theorem purge_deletes_exactly_surplus_witness :
    deleteRequests (PurgeOldBackups baseCfg okCollab).1 = ["20240101"] := by
  have h := purge_deletes_exactly_surplus baseCfg okCollab
    ["20240103", "20240102", "20240101"] (by decide) (by decide)
  exact ((h.2 (by decide)).1).trans (by decide)

/-- C2: per-directory pipeline failures and per-key deletion failures are
absorbed into notifications and processing continues; `Backup` always returns
`nil` and `PurgeOldBackups` returns an error exactly when the initial listing
fails. -/
theorem backup_purge_error_policy (cfg : BackupConfig) (c : Collab) :
    (Backup cfg c).2 = none
    ∧ (Backup cfg c).1.countP isBackupNotif = cfg.dirs.length
    ∧ (∀ dir e, dir ∈ cfg.dirs → (pipelineOf cfg c dir).2.2 = some e →
        Event.notifyFailure dir 0 0 e ∈ (Backup cfg c).1)
    ∧ (∀ keys, c.list = .ok keys → (PurgeOldBackups cfg c).2 = none)
    ∧ (∀ e, c.list = .error e → (PurgeOldBackups cfg c).2 = some e)
    ∧ (∀ key, key ∈ purgeCandidates cfg c →
        Event.deleteKey key ∈ (PurgeOldBackups cfg c).1
        ∧ ∀ e, c.delete key = .error e →
            Event.notifyDeleteFailure key e ∈ (PurgeOldBackups cfg c).1) := by
  refine ⟨rfl, backup_notif_count_aux cfg c cfg.dirs, ?_, ?_, ?_, ?_⟩
  · intro dir e hdir herr
    exact backup_failure_notified cfg c dir e hdir herr
  · intro keys hl
    rw [purge_eq_of_ok cfg c _ (listBackups_snd_of_ok c keys hl)]
    split <;> split <;> rfl
  · intro e hl
    rw [purge_eq_of_err cfg c e (listBackups_snd_of_err c e hl)]
  · intro key hk
    unfold purgeCandidates at hk
    cases hL : (ListBackups c).2 with
    | error e => rw [hL] at hk; simp at hk
    | ok keys =>
      rw [hL] at hk
      change key ∈ (if (keys.length : Int) ≤ cfg.retentionCount then []
        else keys.drop cfg.retentionCount.toNat) at hk
      by_cases hle : (keys.length : Int) ≤ cfg.retentionCount
      · rw [if_pos hle] at hk; simp at hk
      · rw [if_neg hle] at hk
        rw [purge_eq_of_ok cfg c keys hL, if_neg hle]
        have hm := purgeLoop_mem c _ key hk
        exact ⟨List.mem_append_right _ hm.1,
          fun e he => List.mem_append_right _ (hm.2 e he)⟩

/-- Witness for C2: with every collaborator call failing, `Backup` still
returns `nil` with one failure notification per directory, and
`PurgeOldBackups` surfaces only the listing error. -/
theorem backup_purge_error_policy_witness :
    (Backup cancelCfg failCollab).2 = none
    ∧ (Backup cancelCfg failCollab).1.countP isBackupNotif = 2
    ∧ (PurgeOldBackups cancelCfg failCollab).2 = some "boom" := by
  have h := backup_purge_error_policy cancelCfg failCollab
  exact ⟨h.1, h.2.1, h.2.2.2.2.1 "boom" rfl⟩

/-- C6: an archive step reporting zero successfully archived files fails the
directory with the "no processable files" error before any key fetch,
encryption, or upload call is made. -/
theorem no_processable_files_short_circuit (cfg : BackupConfig) (c : Collab)
    (dir : String) (ar : ArchiveResp) (ha : c.archiveDir dir = .ok ar)
    (hs : ar.successFiles ≤ 0) :
    archivedBackup cfg c dir =
      ([Event.archive dir], zeroResp, some errNoProcessableFiles)
    ∧ Event.fetchKey ∉ (archivedBackup cfg c dir).1
    ∧ (∀ p, Event.encrypt p ∉ (archivedBackup cfg c dir).1)
    ∧ (∀ p, Event.uploadFile p ∉ (archivedBackup cfg c dir).1) := by
  have heq : archivedBackup cfg c dir =
      ([Event.archive dir], zeroResp, some errNoProcessableFiles) := by
    unfold archivedBackup
    simp [ha, hs]
  refine ⟨heq, ?_, ?_, ?_⟩ <;> simp [heq]

/-- Witness for C6: the zero-files archive response short-circuits the
pipeline of `/data` even with encryption configured. -/
theorem no_processable_files_short_circuit_witness :
    archivedBackup encCfg zeroFilesCollab "/data" =
      ([Event.archive "/data"], zeroResp, some errNoProcessableFiles) :=
  (no_processable_files_short_circuit encCfg zeroFilesCollab "/data"
    zeroFilesArchiveResp rfl (by decide)).1

/-- C8: when encryption succeeds, the plaintext archive is removed
immediately after encryption and before the upload is attempted — the trace
starts with archive, key fetch, encrypt, remove-plaintext, upload, whatever
the upload outcome. -/
theorem plaintext_removed_before_upload (cfg : BackupConfig) (c : Collab)
    (dir : String) (ar : ArchiveResp) (k encPath : String)
    (henc : cfg.encryption.enabled = true)
    (ha : c.archiveDir dir = .ok ar) (hs : 0 < ar.successFiles)
    (hk : c.fetchGPGPubKeyFromKeyServer cfg.encryption.gpg.keyID
      cfg.encryption.gpg.keyServer = .ok k)
    (he : c.encryptFile ar.archivePath = .ok encPath) :
    ∃ rest, (archivedBackup cfg c dir).1 =
      [Event.archive dir, Event.fetchKey, Event.encrypt ar.archivePath,
       Event.removeFile ar.archivePath, Event.uploadFile encPath] ++ rest := by
  have hs2 : ¬ ar.successFiles ≤ 0 := by omega
  cases hu : c.uploadFile encPath with
  | error e =>
    exact ⟨[], by unfold archivedBackup; simp [ha, hs2, henc, hk, he, hu]⟩
  | ok key =>
    exact ⟨[Event.removeFile encPath],
      by unfold archivedBackup; simp [ha, hs2, henc, hk, he, hu]⟩

/-- Witness for C8 on the failing-upload collaborator: the plaintext archive
removal precedes the (failing) upload attempt. -/
theorem plaintext_removed_before_upload_witness :
    ∃ rest, (archivedBackup encCfg uploadFailCollab "/data").1 =
      [Event.archive "/data", Event.fetchKey, Event.encrypt "/tmp/a.tar",
       Event.removeFile "/tmp/a.tar", Event.uploadFile "/tmp/a.tar.gpg"]
      ++ rest :=
  plaintext_removed_before_upload encCfg uploadFailCollab "/data"
    okArchiveResp "pubkey" "/tmp/a.tar.gpg" rfl rfl (by decide) rfl rfl

/-- C3 counterexample: the archive step gathers `totalDirs = 2`,
`totalFiles = 3`, then the key fetch fails; the emitted failure notification
carries counts 0, 0 — the gathered counts are not propagated. -/
theorem backup_failure_counts_zeroed_cex :
    (Backup encCfg fetchFailCollab).1 =
      [Event.archive "/data", Event.fetchKey,
       Event.notifyFailure "/data" 0 0 "fetch failed"]
    ∧ Event.notifyFailure "/data" 2 3 "fetch failed" ∉
        (Backup encCfg fetchFailCollab).1 := by
  decide

/-- C3 amended: on every archived-pipeline failure `archivedBackup` returns
the zero-value response, so the failure notification emitted by `Backup`
carries zeroed file/dir counts, not the counts gathered by the archive
step. -/
theorem backup_failure_counts_zeroed (cfg : BackupConfig) (c : Collab)
    (dir : String) (e : String) (harch : cfg.archiveDirs = true)
    (hdir : dir ∈ cfg.dirs)
    (herr : (archivedBackup cfg c dir).2.2 = some e) :
    (archivedBackup cfg c dir).2.1 = zeroResp
    ∧ Event.notifyFailure dir 0 0 e ∈ (Backup cfg c).1 := by
  have hp : (pipelineOf cfg c dir).2.2 = some e := by
    unfold pipelineOf
    rw [harch]
    simpa using herr
  exact ⟨archivedBackup_err_resp cfg c dir e herr,
    backup_failure_notified cfg c dir e hdir hp⟩

/-- Witness for C3 amended, at the key-fetch-failure run. -/
theorem backup_failure_counts_zeroed_witness :
    (archivedBackup encCfg fetchFailCollab "/data").2.1 = zeroResp
    ∧ Event.notifyFailure "/data" 0 0 "fetch failed" ∈
        (Backup encCfg fetchFailCollab).1 :=
  backup_failure_counts_zeroed encCfg fetchFailCollab "/data" "fetch failed"
    rfl (by decide) (by decide)

/-- C4 counterexample: archiving succeeds and creates `/tmp/a.tar`, the
upload of that staged file fails, and the pipeline ends without removing any
local file — the staged archive survives the failure path. -/
theorem temp_file_not_removed_on_upload_failure_cex :
    (archivedBackup baseCfg uploadFailCollab "/data").1 =
      [Event.archive "/data", Event.uploadFile "/tmp/a.tar"]
    ∧ removedFiles (archivedBackup baseCfg uploadFailCollab "/data").1 = [] := by
  decide

/-- C4 amended: local temporary files are removed only by the steps that
succeed — the staged file after a successful upload and the plaintext archive
after successful encryption; on failure paths the files already created are
not removed (in particular, a failed upload leaves the staged file on
disk). -/
theorem temp_file_removal_policy (cfg : BackupConfig) (c : Collab)
    (dir : String) (ar : ArchiveResp) (ha : c.archiveDir dir = .ok ar)
    (hs : 0 < ar.successFiles) :
    (cfg.encryption.enabled = false →
      (∀ key, c.uploadFile ar.archivePath = .ok key →
        removedFiles (archivedBackup cfg c dir).1 = [ar.archivePath])
      ∧ (∀ e, c.uploadFile ar.archivePath = .error e →
        removedFiles (archivedBackup cfg c dir).1 = []))
    ∧ (cfg.encryption.enabled = true →
      (∀ e, c.fetchGPGPubKeyFromKeyServer cfg.encryption.gpg.keyID
          cfg.encryption.gpg.keyServer = .error e →
        removedFiles (archivedBackup cfg c dir).1 = [])
      ∧ (∀ k, c.fetchGPGPubKeyFromKeyServer cfg.encryption.gpg.keyID
          cfg.encryption.gpg.keyServer = .ok k →
        (∀ e, c.encryptFile ar.archivePath = .error e →
          removedFiles (archivedBackup cfg c dir).1 = [])
        ∧ (∀ encPath, c.encryptFile ar.archivePath = .ok encPath →
          (∀ key, c.uploadFile encPath = .ok key →
            removedFiles (archivedBackup cfg c dir).1 =
              [ar.archivePath, encPath])
          ∧ (∀ e, c.uploadFile encPath = .error e →
            removedFiles (archivedBackup cfg c dir).1 =
              [ar.archivePath])))) := by
  have hs2 : ¬ ar.successFiles ≤ 0 := by omega
  constructor
  · intro henc
    constructor
    · intro key hu
      unfold archivedBackup
      simp [ha, hs2, henc, hu, removedFiles]
    · intro e hu
      unfold archivedBackup
      simp [ha, hs2, henc, hu, removedFiles]
  · intro henc
    constructor
    · intro e hf
      unfold archivedBackup
      simp [ha, hs2, henc, hf, removedFiles]
    · intro k hf
      constructor
      · intro e he
        unfold archivedBackup
        simp [ha, hs2, henc, hf, he, removedFiles]
      · intro encPath he
        constructor
        · intro key hu
          unfold archivedBackup
          simp [ha, hs2, henc, hf, he, hu, removedFiles]
        · intro e hu
          unfold archivedBackup
          simp [ha, hs2, henc, hf, he, hu, removedFiles]

/-- Witness for C4 amended: the all-success encrypted pipeline removes the
plaintext archive and then the uploaded encrypted file, and the
upload-failure run removes only the plaintext archive. -/
theorem temp_file_removal_policy_witness :
    removedFiles (archivedBackup encCfg okCollab "/data").1 =
      ["/tmp/a.tar", "/tmp/a.tar.gpg"]
    ∧ removedFiles (archivedBackup encCfg uploadFailCollab "/data").1 =
      ["/tmp/a.tar"] := by
  constructor
  · exact (((temp_file_removal_policy encCfg okCollab "/data" okArchiveResp
      rfl (by decide)).2 rfl).2 "pubkey" rfl).2 "/tmp/a.tar.gpg" rfl
      |>.1 "p/h/20240101000000" rfl
  · exact (((temp_file_removal_policy encCfg uploadFailCollab "/data"
      okArchiveResp rfl (by decide)).2 rfl).2 "pubkey" rfl).2 "/tmp/a.tar.gpg"
      rfl |>.2 "upload failed" rfl

/-- C5 counterexample: with a cancelled context — every storage call returns
the cancellation error — the cancelled directory `/a` still gets a failure
notification and the remaining directory `/b` is still processed (its upload
is attempted and it is notified too); nothing is skipped. -/
theorem cancellation_not_honored_cex :
    (Backup cancelCfg cancelledCollab).1 =
      [Event.uploadDir "/a", Event.notifyFailure "/a" 0 0 "context canceled",
       Event.uploadDir "/b", Event.notifyFailure "/b" 0 0 "context canceled"] := by
  decide

/-- C5 amended: `Backup` performs no cancellation check; when the context is
cancelled (every pipeline collaborator call returning the cancellation
error), the current directory's pipeline aborts with that error but a failure
notification is still emitted for it, every remaining directory is still
processed with its own failure notification, and `Backup` returns nil. -/
theorem cancellation_processes_all_dirs (cfg : BackupConfig) (c : Collab)
    (e : String) (ha : ∀ d, c.archiveDir d = .error e)
    (hu : ∀ d, c.uploadDir d = .error e) :
    (Backup cfg c).2 = none
    ∧ ∀ dir ∈ cfg.dirs, Event.notifyFailure dir 0 0 e ∈ (Backup cfg c).1 := by
  refine ⟨rfl, fun dir hdir => ?_⟩
  apply backup_failure_notified cfg c dir e hdir
  unfold pipelineOf
  by_cases h : cfg.archiveDirs
  · simp [h, archivedBackup, ha dir]
  · simp [h, unArchivedBackup, hu dir]

/-- Witness for C5 amended: both directories of the cancelled run are
notified as failed. -/
theorem cancellation_processes_all_dirs_witness :
    (Backup cancelCfg cancelledCollab).2 = none
    ∧ Event.notifyFailure "/b" 0 0 "context canceled" ∈
        (Backup cancelCfg cancelledCollab).1 := by
  have h := cancellation_processes_all_dirs cancelCfg cancelledCollab
    "context canceled" (fun _ => rfl) (fun _ => rfl)
  exact ⟨h.1, h.2 "/b" (by decide)⟩

/-- C7: `ListBackups` yields the trimmed timestamp segments sorted in
descending order — strictly descending when the trimmed keys are pairwise
distinct, which holds for any real store listing — returns an empty sequence
and no error on an empty listing, and is a function of the underlying listing
alone (idempotent read). -/
theorem listBackups_contract (c : Collab) :
    (c.list = .ok [] → ListBackups c = ([Event.listCall], .ok []))
    ∧ (∀ keys, c.list = .ok keys → keys ≠ [] →
        (ListBackups c).2 = .ok (sortDateTimes (c.trimPfx keys))
        ∧ (sortDateTimes (c.trimPfx keys)).Perm (c.trimPfx keys)
        ∧ List.Sorted (fun a b => b ≤ a) (sortDateTimes (c.trimPfx keys))
        ∧ ((c.trimPfx keys).Nodup →
            List.Sorted (fun a b => b < a) (sortDateTimes (c.trimPfx keys))))
    ∧ (∀ c2 : Collab, c.list = c2.list → c.trimPfx = c2.trimPfx →
        ListBackups c = ListBackups c2) := by
  refine ⟨?_, ?_, ?_⟩
  · intro h
    unfold ListBackups
    simp [h]
  · intro keys hl hne
    have hlen : ¬ keys.length = 0 := by simpa using hne
    refine ⟨?_, sortDateTimes_perm _, ?_, ?_⟩
    · rw [listBackups_snd_of_ok c keys hl, if_neg hlen]
    · exact (sortDateTimes_sorted _).imp fun h => strDescRel_le h
    · intro hnd
      have hnd2 : (sortDateTimes (c.trimPfx keys)).Nodup :=
        ((sortDateTimes_perm (c.trimPfx keys)).nodup_iff).mpr hnd
      exact ((sortDateTimes_sorted _).and hnd2).imp
        fun hab => strDescRel_lt hab.1 hab.2
  · intro c2 h1 h2
    unfold ListBackups
    rw [h1, h2]

/-- Witness for C7: a three-key listing comes back sorted newest-first and
strictly descending. -/
theorem listBackups_contract_witness :
    (ListBackups okCollab).2 = .ok ["20240103", "20240102", "20240101"]
    ∧ List.Sorted (fun a b : String => b < a)
        (sortDateTimes (okCollab.trimPfx ["20240101", "20240103", "20240102"])) := by
  have h := (listBackups_contract okCollab).2.1
    ["20240101", "20240103", "20240102"] rfl (by decide)
  exact ⟨h.1.trans (by decide), h.2.2.2 (by decide)⟩

/-- With archiving disabled every `Backup` event comes from the unarchived
pipeline, which makes no encryption call. -/
theorem unarchived_no_encryption_events (cfg : BackupConfig) (c : Collab)
    (h : cfg.archiveDirs = false) (ev : Event)
    (hev : ev ∈ (Backup cfg c).1) : isEncryptionCall ev = false := by
  rcases List.mem_flatten.mp hev with ⟨tr, htr, hmem⟩
  rcases List.mem_map.mp htr with ⟨dir, hdir, rfl⟩
  unfold backupOne pipelineOf at hmem
  rw [h] at hmem
  simp only [Bool.false_eq_true, if_false] at hmem
  unfold unArchivedBackup at hmem
  cases hu : c.uploadDir dir with
  | error e =>
    rw [hu] at hmem
    simp at hmem
    rcases hmem with rfl | rfl <;> rfl
  | ok resp =>
    rw [hu] at hmem
    simp at hmem
    rcases hmem with rfl | rfl <;> rfl

/-- C9: a configuration with encryption enabled but archiving disabled (and
otherwise valid) passes validation with the effective encryption flag reset
to disabled; and with archiving disabled the engine never makes an encryption
call, so encryption is never invoked. -/
theorem encryption_disabled_without_archiving (b : BackupConfig)
    (cfg : BackupConfig) (c : Collab) :
    (b.encryption.enabled = true → b.archiveDirs = false → b.dirs ≠ [] →
      0 < b.retentionCount → b.cron ≠ "" →
      b.validate =
        .ok { b with encryption := { b.encryption with enabled := false } })
    ∧ (cfg.archiveDirs = false →
      Event.fetchKey ∉ (Backup cfg c).1
      ∧ ∀ p, Event.encrypt p ∉ (Backup cfg c).1) := by
  constructor
  · intro h1 h2 h3 h4 h5
    have hl : ¬ b.dirs.length = 0 := by simpa using h3
    have hr : ¬ b.retentionCount ≤ 0 := by omega
    unfold BackupConfig.validate
    simp [hl, hr, h5, h1, h2]
  · intro harch
    constructor
    · intro hmem
      have := unarchived_no_encryption_events cfg c harch _ hmem
      simp [isEncryptionCall] at this
    · intro p hmem
      have := unarchived_no_encryption_events cfg c harch _ hmem
      simp [isEncryptionCall] at this

/-- Witness for C9: the invalid configuration is repaired, and the
no-archiving run makes no key fetch. -/
theorem encryption_disabled_without_archiving_witness :
    invalidEncCfg.validate = .ok { invalidEncCfg with
      encryption := { invalidEncCfg.encryption with enabled := false } }
    ∧ Event.fetchKey ∉ (Backup cancelCfg okCollab).1 := by
  have h := encryption_disabled_without_archiving invalidEncCfg cancelCfg
    okCollab
  exact ⟨h.1 rfl rfl (by decide) (by decide) (by decide), (h.2 rfl).1⟩

/-- C10: a configuration with encryption enabled, archiving on, but an empty
GPG key server or key ID (and otherwise valid) passes validation with
encryption silently disabled rather than erroring. -/
theorem missing_gpg_config_disables_encryption (b : BackupConfig)
    (h1 : b.encryption.enabled = true) (h2 : b.archiveDirs = true)
    (h3 : b.encryption.gpg.keyServer = "" ∨ b.encryption.gpg.keyID = "")
    (h4 : b.dirs ≠ []) (h5 : 0 < b.retentionCount) (h6 : b.cron ≠ "") :
    b.validate =
      .ok { b with encryption := { b.encryption with enabled := false } } := by
  have hl : ¬ b.dirs.length = 0 := by simpa using h4
  have hr : ¬ b.retentionCount ≤ 0 := by omega
  unfold BackupConfig.validate
  rcases h3 with h3 | h3 <;> simp [hl, hr, h6, h1, h2, h3]

/-- Witness for C10 at the empty-key-server configuration. -/
theorem missing_gpg_config_disables_encryption_witness :
    missingGpgCfg.validate = .ok { missingGpgCfg with
      encryption := { missingGpgCfg.encryption with enabled := false } } :=
  missing_gpg_config_disables_encryption missingGpgCfg rfl rfl
    (Or.inl rfl) (by decide) (by decide) (by decide)

end Arclift
